import Mathlib

/-! The `Wanderer` behaviour controller of `src/src/laser_follower.cpp`.

A shallow embedding of the node class `Wanderer`: its data members become the
fields of a structure, every member function becomes a function on that
structure, and the two collaborators the class talks to are made explicit:

* the publisher `publisher_` is the list of the messages handed to
  `publisher_->publish`, oldest first;
* the C library generator behind `rand()` is a stream `rand : Nat → Int`
  (the value the `i`-th call returns) together with the number of calls made
  so far.

Logging (`RCLCPP_INFO`) has no effect on the controller and is left out.
-/

namespace LaserFollower

/-! ## Messages -/

/-- A `geometry_msgs::msg::Vector3`. The `double` components are taken as exact
rationals, so that the decimal constants of the source are exact. -/
structure Vector3 where
  x : ℚ
  y : ℚ
  z : ℚ
deriving DecidableEq

/-- A `geometry_msgs::msg::Twist`: the six-component motion command. -/
structure Twist where
  linear : Vector3
  angular : Vector3
deriving DecidableEq

/-- A motion command all of whose six components are zero. -/
def Twist.all_zero (t : Twist) : Prop :=
  t.linear.x = 0 ∧ t.linear.y = 0 ∧ t.linear.z = 0 ∧
  t.angular.x = 0 ∧ t.angular.y = 0 ∧ t.angular.z = 0

instance (t : Twist) : Decidable t.all_zero := by
  unfold Twist.all_zero
  exact inferInstance

/-- A motion command that moves in the plane only: the linear y and z and the
angular x and y components are zero, and it does not both translate along x and
rotate about z. -/
def Twist.planar (t : Twist) : Prop :=
  t.linear.y = 0 ∧ t.linear.z = 0 ∧ t.angular.x = 0 ∧ t.angular.y = 0 ∧
  ¬ (t.linear.x ≠ 0 ∧ t.angular.z ≠ 0)

/-- An `irobot_create_msgs::msg::HazardDetection` record. Only its `uint8 type`
tag is read by the controller; the header is left out. -/
structure HazardDetection where
  type : Nat
deriving DecidableEq

/-- An `irobot_create_msgs::msg::HazardDetectionVector`: one hazard batch. -/
structure HazardDetectionVector where
  detections : List HazardDetection
deriving DecidableEq

/-! ## Timers -/

/-- The member function a wall timer is bound to. -/
inductive Callback where
  | forward_callback
  | spin_callback
  | reverse_callback
  | reverse_stop_callback
  | forward_stop_callback
  | spin_stop_callback
deriving DecidableEq

/-- A wall timer of the host runtime: its period in milliseconds, the member
function it calls, and whether it is cancelled. -/
structure Timer where
  period_ms : Int
  callback : Callback
  canceled : Bool
deriving DecidableEq

/-- The call `create_wall_timer(period, callback)`: a new timer, running. -/
def create_wall_timer (period_ms : Int) (callback : Callback) : Timer :=
  { period_ms := period_ms, callback := callback, canceled := false }

/-- The call `timer->cancel()`. -/
def Timer.cancel (t : Timer) : Timer := { t with canceled := true }

/-- The call `timer->reset()`: the timer runs again, counting from now, whether
or not it was cancelled. -/
def Timer.reset (t : Timer) : Timer := { t with canceled := false }

/-- A timer is armed when it is not cancelled. -/
def Timer.armed (t : Timer) : Bool := !t.canceled

/-- Armed status of a timer handle that may still be null. -/
def armed_handle : Option Timer → Bool
  | none => false
  | some t => t.armed

/-! ## Machine integers -/

/-- The value of an integer expression in a 32-bit two's complement `int`. -/
def int32 (x : Int) : Int := (x + 2147483648) % 4294967296 - 2147483648

/-! ## The node -/

/-- The data members of `class Wanderer` (the two subscriptions apart), with
the messages published so far and the number of `rand()` calls made so far. -/
structure Wanderer where
  publisher_ : List Twist
  rand_calls : Nat
  full_stop_timer_ : Option Timer
  spin_timer_ : Timer
  spin_stop_timer_ : Option Timer
  reverse_timer_ : Timer
  reverse_stop_timer_ : Timer
  forward_timer_ : Timer
  forward_stop_timer_ : Timer
  in_process : Bool
  reverse_done : Bool
  spin_done : Bool
  state : Int
deriving DecidableEq

namespace Wanderer

/-- Member `int idle = 0`. -/
def idle : Int := 0
/-- Member `int during_process = 1`. -/
def during_process : Int := 1
/-- Member `int reverse = 2`. -/
def reverse : Int := 2
/-- Member `int spinn = 3`. -/
def spinn : Int := 3
/-- Member `int go_forward = 4`. -/
def go_forward : Int := 4

/-- The constructor `Wanderer()`: the five timers are created, all but
`forward_timer_` are cancelled at once, `spin_stop_timer_` and
`full_stop_timer_` stay null, and the state is `idle`. -/
def ctor : Wanderer :=
  { publisher_ := []
    rand_calls := 0
    full_stop_timer_ := none
    forward_timer_ := create_wall_timer 500 Callback.forward_callback
    spin_timer_ := (create_wall_timer 500 Callback.spin_callback).cancel
    spin_stop_timer_ := none
    reverse_timer_ := (create_wall_timer 1500 Callback.reverse_callback).cancel
    reverse_stop_timer_ := (create_wall_timer 3000 Callback.reverse_stop_callback).cancel
    forward_stop_timer_ := (create_wall_timer 3000 Callback.forward_stop_callback).cancel
    in_process := false
    reverse_done := false
    spin_done := false
    state := idle }

/-- The call `publisher_->publish(twist_command)`. -/
def publish (w : Wanderer) (twist_command : Twist) : Wanderer :=
  { w with publisher_ := w.publisher_ ++ [twist_command] }

/-- The member function `random_between_two_int`, with `r` the value `rand()`
returns: `rand() % (max - min) + min + 1` in `int` arithmetic, `%` truncating.
The division by zero of `max - min = 0` has no result. -/
def random_between_two_int (min max : Int) (r : Int) : Option Int :=
  let d := int32 (max - min)
  if d = 0 then none
  else some (int32 (int32 (Int.tmod r d + min) + 1))

/-- The member function `full_stop_callback`. -/
def full_stop_callback (w : Wanderer) : Wanderer :=
  w.publish { linear := { x := 0.0, y := 0.0, z := 0.0 },
              angular := { x := 0.0, y := 0.0, z := 0.0 } }

/-- The member function `spin_callback`. -/
def spin_callback (w : Wanderer) : Wanderer :=
  w.publish { linear := { x := 0.0, y := 0.0, z := 0.0 },
              angular := { x := 0.0, y := 0.0, z := 0.5 } }

/-- The member function `spin_stop_callback`. The handle `spin_stop_timer_`
is null until the first spin phase; calling through a null handle has no
result. -/
def spin_stop_callback (w : Wanderer) : Option Wanderer :=
  match w.spin_stop_timer_ with
  | none => none
  | some t =>
    let w1 := { w with spin_timer_ := w.spin_timer_.cancel }
    let w2 := { w1 with spin_stop_timer_ := some t.cancel }
    let w3 := { w2 with state := go_forward }
    some (w3.publish { linear := { x := 0.0, y := 0.0, z := 0.0 },
                       angular := { x := 0.0, y := 0.0, z := 0.0 } })

/-- The member function `reverse_callback`. -/
def reverse_callback (w : Wanderer) : Wanderer :=
  w.publish { linear := { x := -0.0001, y := 0.0, z := 0.0 },
              angular := { x := 0.0, y := 0.0, z := 0.0 } }

/-- The member function `reverse_stop_callback`. -/
def reverse_stop_callback (w : Wanderer) : Wanderer :=
  let w1 := { w with reverse_timer_ := w.reverse_timer_.cancel }
  let w2 := { w1 with reverse_stop_timer_ := w1.reverse_stop_timer_.cancel }
  let w3 := { w2 with state := spinn }
  w3.publish { linear := { x := 0.0, y := 0.0, z := 0.0 },
               angular := { x := 0.0, y := 0.0, z := 0.0 } }

/-- The member function `forward_callback`. -/
def forward_callback (w : Wanderer) : Wanderer :=
  w.publish { linear := { x := 0.1, y := 0.0, z := 0.0 },
              angular := { x := 0.0, y := 0.0, z := 0.0 } }

/-- The member function `forward_stop_callback`. -/
def forward_stop_callback (w : Wanderer) : Wanderer :=
  let w1 := { w with forward_timer_ := w.forward_timer_.cancel }
  w1.publish { linear := { x := 0.0, y := 0.0, z := 0.0 },
               angular := { x := 0.0, y := 0.0, z := 0.0 } }

/-- The loop of `hazard_callback` over `msg.detections`: the flag `hazard`
starts `false` and is set by every record whose type is `BUMP`. -/
def scan_detections (BUMP : Nat) (detections : List HazardDetection) : Bool :=
  detections.foldl (fun hazard hd => if hd.type = BUMP then true else hazard) false

/-- The member function `hazard_callback`. `BUMP` is the constant
`HazardDetection::BUMP` of the message package, `rand` the stream of the
values successive `rand()` calls return. -/
def hazard_callback (BUMP : Nat) (rand : Nat → Int) (msg : HazardDetectionVector)
    (w : Wanderer) : Option Wanderer :=
  if w.state = idle then
    let hazard := scan_detections BUMP msg.detections
    if hazard then
      let w1 := w.forward_stop_callback
      some { w1 with state := reverse }
    else
      some w
  else if w.state = reverse then
    let w1 := { w with reverse_timer_ := w.reverse_timer_.reset }
    let w2 := { w1 with reverse_stop_timer_ := w1.reverse_stop_timer_.reset }
    some { w2 with state := during_process }
  else if w.state = spinn then
    let w1 := { w with spin_timer_ := w.spin_timer_.reset }
    let r := rand w1.rand_calls
    let w2 := { w1 with rand_calls := w1.rand_calls + 1 }
    match random_between_two_int 1 5 r with
    | none => none
    | some duration =>
      let t := create_wall_timer (duration * 1000) Callback.spin_stop_callback
      let w3 := { w2 with spin_stop_timer_ := some t }
      some { w3 with state := during_process }
  else if w.state = go_forward then
    let w1 := { w with forward_timer_ := w.forward_timer_.reset }
    some { w1 with state := idle }
  else
    some w

/-- The same batch delivered `n` times in a row to `hazard_callback`. -/
def hazard_callback_n (BUMP : Nat) (rand : Nat → Int) (msg : HazardDetectionVector) :
    Nat → Wanderer → Option Wanderer
  | 0, w => some w
  | n + 1, w => (hazard_callback BUMP rand msg w).bind (hazard_callback_n BUMP rand msg n)

end Wanderer

/-! ## Events -/

/-- What the host runtime can deliver to the node: a hazard batch on the
subscription, or the firing of one of the six timers the node creates.
(`full_stop_timer_` is never created, so it never fires.) -/
inductive Event where
  | hazard (msg : HazardDetectionVector)
  | forward_timer_
  | spin_timer_
  | spin_stop_timer_
  | reverse_timer_
  | reverse_stop_timer_
  | forward_stop_timer_
deriving DecidableEq

namespace Wanderer

/-- The call of the member function a timer is bound to. -/
def call (cb : Callback) (w : Wanderer) : Option Wanderer :=
  match cb with
  | Callback.forward_callback => some w.forward_callback
  | Callback.spin_callback => some w.spin_callback
  | Callback.reverse_callback => some w.reverse_callback
  | Callback.reverse_stop_callback => some w.reverse_stop_callback
  | Callback.forward_stop_callback => some w.forward_stop_callback
  | Callback.spin_stop_callback => w.spin_stop_callback

/-- The firing of a timer: only an armed timer fires, and it calls the member
function it is bound to. A cancelled timer offers no event. -/
def fire (t : Timer) (w : Wanderer) : Option Wanderer :=
  if t.armed then w.call t.callback else none

/-- The dispatch of one event to the node; `none` when the event cannot occur
(its timer is cancelled or was never created). -/
def step (BUMP : Nat) (rand : Nat → Int) (e : Event) (w : Wanderer) : Option Wanderer :=
  match e with
  | Event.hazard msg => hazard_callback BUMP rand msg w
  | Event.forward_timer_ => fire w.forward_timer_ w
  | Event.spin_timer_ => fire w.spin_timer_ w
  | Event.spin_stop_timer_ =>
    match w.spin_stop_timer_ with
    | none => none
    | some t => fire t w
  | Event.reverse_timer_ => fire w.reverse_timer_ w
  | Event.reverse_stop_timer_ => fire w.reverse_stop_timer_ w
  | Event.forward_stop_timer_ => fire w.forward_stop_timer_ w

/-- The dispatch of a sequence of events, one after the other, each handler
running to completion before the next event. -/
def run (BUMP : Nat) (rand : Nat → Int) : List Event → Wanderer → Option Wanderer
  | [], w => some w
  | e :: es, w => (step BUMP rand e w).bind (run BUMP rand es)

/-- The commands published between configuration `w0` and a later
configuration `w`. -/
def emitted_since (w0 w : Wanderer) : List Twist :=
  w.publisher_.drop w0.publisher_.length

/-- Configuration `w1` has the state and every timer of configuration `w`. -/
def same_control (w w1 : Wanderer) : Prop :=
  w1.state = w.state ∧
  w1.forward_timer_ = w.forward_timer_ ∧ w1.forward_stop_timer_ = w.forward_stop_timer_ ∧
  w1.reverse_timer_ = w.reverse_timer_ ∧ w1.reverse_stop_timer_ = w.reverse_stop_timer_ ∧
  w1.spin_timer_ = w.spin_timer_ ∧ w1.spin_stop_timer_ = w.spin_stop_timer_ ∧
  w1.full_stop_timer_ = w.full_stop_timer_

/-- Every timer member is bound to the member function the constructor or
`hazard_callback` gave it, `full_stop_timer_` is null and the ForwardStop
timer is cancelled. -/
def bound (w : Wanderer) : Prop :=
  w.forward_timer_.callback = Callback.forward_callback ∧
  w.spin_timer_.callback = Callback.spin_callback ∧
  w.reverse_timer_.callback = Callback.reverse_callback ∧
  w.reverse_stop_timer_.callback = Callback.reverse_stop_callback ∧
  w.forward_stop_timer_.callback = Callback.forward_stop_callback ∧
  (∀ t, w.spin_stop_timer_ = some t → t.callback = Callback.spin_stop_callback) ∧
  w.full_stop_timer_ = none ∧
  w.forward_stop_timer_.armed = false

/-- The armed status of the five timers that are ever armed, in the order
ForwardDrive, Reverse, ReverseStop, Spin, SpinStop. -/
def armed_pattern (w : Wanderer) : Bool × Bool × Bool × Bool × Bool :=
  (w.forward_timer_.armed, w.reverse_timer_.armed, w.reverse_stop_timer_.armed,
   w.spin_timer_.armed, armed_handle w.spin_stop_timer_)

/-- The phase invariant of the controller: which timers are armed in which
state. In `during_process` either the reverse pair or the spin pair is armed. -/
def consistent (w : Wanderer) : Prop :=
  w.bound ∧
  ((w.state = idle ∧ w.armed_pattern = (true, false, false, false, false)) ∨
   (w.state = reverse ∧ w.armed_pattern = (false, false, false, false, false)) ∨
   (w.state = spinn ∧ w.armed_pattern = (false, false, false, false, false)) ∨
   (w.state = go_forward ∧ w.armed_pattern = (false, false, false, false, false)) ∨
   (w.state = during_process ∧ w.armed_pattern = (false, true, true, false, false)) ∨
   (w.state = during_process ∧ w.armed_pattern = (false, false, false, true, true)))

end Wanderer

/-! ## Auxiliary facts -/

/-- The scanning loop, started from any value of the flag, ends with the flag
set exactly when it started set or some record is a bump. -/
theorem scan_foldl_eq_true (BUMP : Nat) (detections : List HazardDetection) (b : Bool) :
    detections.foldl (fun hazard hd => if hd.type = BUMP then true else hazard) b = true ↔
      (b = true ∨ ∃ hd ∈ detections, hd.type = BUMP) := by
  induction detections generalizing b with
  | nil => simp
  | cons hd tl ih =>
    rw [List.foldl_cons, ih]
    by_cases h : hd.type = BUMP
    · simp [h]
    · simp [h]

/-- The flag computed by the loop of `hazard_callback` is set exactly when the
batch holds a bump record. -/
theorem scan_detections_eq_true (BUMP : Nat) (detections : List HazardDetection) :
    Wanderer.scan_detections BUMP detections = true ↔ ∃ hd ∈ detections, hd.type = BUMP := by
  unfold Wanderer.scan_detections
  rw [scan_foldl_eq_true]
  simp

/-- The flag computed by the loop of `hazard_callback` stays clear exactly when
no record of the batch is a bump. -/
theorem scan_detections_eq_false (BUMP : Nat) (detections : List HazardDetection) :
    Wanderer.scan_detections BUMP detections = false ↔ ∀ hd ∈ detections, hd.type ≠ BUMP := by
  rw [← Bool.not_eq_true, scan_detections_eq_true]
  simp

/-- An `int` value is its own 32-bit representation. -/
theorem int32_of_range (x : Int) (h1 : -2147483648 ≤ x) (h2 : x ≤ 2147483647) :
    int32 x = x := by
  unfold int32
  omega

/-- The exact result of `hazard_callback` in state `idle` on a batch whose scan
finds a bump. -/
theorem hazard_callback_idle_bump_eq (BUMP : Nat) (rand : Nat → Int)
    (msg : HazardDetectionVector) (w : Wanderer) (hstate : w.state = Wanderer.idle)
    (hscan : Wanderer.scan_detections BUMP msg.detections = true) :
    Wanderer.hazard_callback BUMP rand msg w
      = some { w.forward_stop_callback with state := Wanderer.reverse } := by
  simp only [Wanderer.hazard_callback, hstate, hscan, if_true]

/-- The exact result of `hazard_callback` in state `reverse`. -/
theorem hazard_callback_reverse_eq (BUMP : Nat) (rand : Nat → Int)
    (msg : HazardDetectionVector) (w : Wanderer) (hstate : w.state = Wanderer.reverse) :
    Wanderer.hazard_callback BUMP rand msg w
      = some { w with reverse_timer_ := w.reverse_timer_.reset,
                      reverse_stop_timer_ := w.reverse_stop_timer_.reset,
                      state := Wanderer.during_process } := by
  simp [Wanderer.hazard_callback, hstate, Wanderer.reverse, Wanderer.idle]

/-- At the call site `random_between_two_int(1, 5)` the divisor is `4`, so the
call always has a result. -/
theorem random_between_two_int_1_5 (r : Int) :
    Wanderer.random_between_two_int 1 5 r = some (int32 (int32 (Int.tmod r 4 + 1) + 1)) := by
  have hd : int32 (5 - 1) = 4 := by decide
  simp only [Wanderer.random_between_two_int, hd]
  simp

/-- For `int` arguments `min < max` and a non-negative `rand()` value the call
of `random_between_two_int` has a result, which lies in `min + 1 .. max`; this
also covers a difference `max - min` that does not fit an `int`. -/
theorem random_between_two_int_range (min max r : Int) (hmin : -2147483648 ≤ min)
    (hmax : max ≤ 2147483647) (hlt : min < max) (hr : 0 ≤ r) :
    ∃ d, Wanderer.random_between_two_int min max r = some d ∧ min + 1 ≤ d ∧ d ≤ max := by
  unfold Wanderer.random_between_two_int
  by_cases hov : max - min ≤ 2147483647
  · have hd : int32 (max - min) = max - min := int32_of_range _ (by omega) hov
    have h1 : 0 ≤ Int.tmod r (max - min) := Int.tmod_nonneg _ hr
    have h2 : Int.tmod r (max - min) < max - min := Int.tmod_lt_of_pos _ (by omega)
    simp only [hd]
    rw [if_neg (by omega)]
    generalize Int.tmod r (max - min) = q at h1 h2
    refine ⟨_, rfl, ?_, ?_⟩ <;> unfold int32 <;> omega
  · have hd : int32 (max - min) = -(4294967296 - (max - min)) := by
      unfold int32
      omega
    have h1 : 0 ≤ Int.tmod r (4294967296 - (max - min)) := Int.tmod_nonneg _ hr
    have h2 : Int.tmod r (4294967296 - (max - min)) < 4294967296 - (max - min) :=
      Int.tmod_lt_of_pos _ (by omega)
    simp only [hd, Int.tmod_neg]
    rw [if_neg (by omega)]
    generalize Int.tmod r (4294967296 - (max - min)) = q at h1 h2
    refine ⟨_, rfl, ?_, ?_⟩ <;> unfold int32 <;> omega

/-- The exact result of `hazard_callback` in state `spinn`, given the value
the call of `random_between_two_int` returns. -/
theorem hazard_callback_spinn_eq (BUMP : Nat) (rand : Nat → Int)
    (msg : HazardDetectionVector) (w : Wanderer) (d : Int)
    (hstate : w.state = Wanderer.spinn)
    (hd : Wanderer.random_between_two_int 1 5 (rand w.rand_calls) = some d) :
    Wanderer.hazard_callback BUMP rand msg w
      = some { w with spin_timer_ := w.spin_timer_.reset,
                      rand_calls := w.rand_calls + 1,
                      spin_stop_timer_ :=
                        some (create_wall_timer (d * 1000) Callback.spin_stop_callback),
                      state := Wanderer.during_process } := by
  simp [Wanderer.hazard_callback, hstate, hd, Wanderer.spinn, Wanderer.reverse, Wanderer.idle]

/-- The exact result of `hazard_callback` in state `go_forward`. -/
theorem hazard_callback_go_forward_eq (BUMP : Nat) (rand : Nat → Int)
    (msg : HazardDetectionVector) (w : Wanderer) (hstate : w.state = Wanderer.go_forward) :
    Wanderer.hazard_callback BUMP rand msg w
      = some { w with forward_timer_ := w.forward_timer_.reset, state := Wanderer.idle } := by
  simp [Wanderer.hazard_callback, hstate, Wanderer.go_forward, Wanderer.spinn,
    Wanderer.reverse, Wanderer.idle]

/-- The exact result of `spin_stop_callback` once `spin_stop_timer_` is set. -/
theorem spin_stop_callback_eq (w : Wanderer) (t : Timer) (hset : w.spin_stop_timer_ = some t) :
    w.spin_stop_callback
      = some (Wanderer.publish
          { w with spin_timer_ := w.spin_timer_.cancel,
                   spin_stop_timer_ := some t.cancel,
                   state := Wanderer.go_forward }
          { linear := { x := 0.0, y := 0.0, z := 0.0 },
            angular := { x := 0.0, y := 0.0, z := 0.0 } }) := by
  simp [Wanderer.spin_stop_callback, hset]

/-- The command published by the stop handlers has all six components zero. -/
theorem stop_command_all_zero :
    ({ linear := { x := 0.0, y := 0.0, z := 0.0 },
       angular := { x := 0.0, y := 0.0, z := 0.0 } } : Twist).all_zero := by
  norm_num [Twist.all_zero]

/-! ## Hazard signals -/

/-- C1. For every batch holding at least one bump record, wherever it stands
and however many there are, `hazard_callback` run in state `idle` sets the state
to `reverse`, cancels the ForwardDrive timer and publishes exactly one motion
command, whose six components are all zero. -/
theorem hazard_idle_bump (BUMP : Nat) (rand : Nat → Int) (msg : HazardDetectionVector)
    (w : Wanderer) (hstate : w.state = Wanderer.idle)
    (hbump : ∃ hd ∈ msg.detections, hd.type = BUMP) :
    ∃ w1 t, Wanderer.hazard_callback BUMP rand msg w = some w1 ∧
      w1.state = Wanderer.reverse ∧
      w1.forward_timer_.armed = false ∧
      w1.publisher_ = w.publisher_ ++ [t] ∧ t.all_zero := by
  have hscan := (scan_detections_eq_true BUMP msg.detections).mpr hbump
  refine ⟨_, ⟨⟨0.0, 0.0, 0.0⟩, ⟨0.0, 0.0, 0.0⟩⟩,
    hazard_callback_idle_bump_eq BUMP rand msg w hstate hscan, rfl, rfl, rfl,
    stop_command_all_zero⟩

/-- Witness of C1: a batch with a bump between two other records, delivered to
the freshly constructed node. -/
theorem hazard_idle_bump_witness :
    Wanderer.ctor.state = Wanderer.idle ∧
    (∃ hd ∈ [(⟨2⟩ : HazardDetection), ⟨1⟩, ⟨1⟩, ⟨5⟩], hd.type = 1) ∧
    ∃ w1 t, Wanderer.hazard_callback 1 (fun _ => 0) ⟨[⟨2⟩, ⟨1⟩, ⟨1⟩, ⟨5⟩]⟩ Wanderer.ctor = some w1 ∧
      w1.state = Wanderer.reverse ∧
      w1.forward_timer_.armed = false ∧
      w1.publisher_ = Wanderer.ctor.publisher_ ++ [t] ∧ t.all_zero :=
  ⟨rfl, ⟨⟨1⟩, by simp, rfl⟩,
    hazard_idle_bump 1 (fun _ => 0) ⟨[⟨2⟩, ⟨1⟩, ⟨1⟩, ⟨5⟩]⟩ Wanderer.ctor rfl ⟨⟨1⟩, by simp, rfl⟩⟩

/-- C2. For every batch without a bump record, the empty batch included,
`hazard_callback` run in state `idle` returns the node as it was: the state is
still `idle`, no timer is touched and nothing is published. -/
theorem hazard_idle_no_bump (BUMP : Nat) (rand : Nat → Int) (msg : HazardDetectionVector)
    (w : Wanderer) (hstate : w.state = Wanderer.idle)
    (hnone : ∀ hd ∈ msg.detections, hd.type ≠ BUMP) :
    Wanderer.hazard_callback BUMP rand msg w = some w := by
  have hscan := (scan_detections_eq_false BUMP msg.detections).mpr hnone
  simp [Wanderer.hazard_callback, hstate, hscan]

/-- Witness of C2: a batch of two records that are not bumps. -/
theorem hazard_idle_no_bump_witness :
    Wanderer.ctor.state = Wanderer.idle ∧
    (∀ hd ∈ [(⟨2⟩ : HazardDetection), ⟨5⟩], hd.type ≠ 1) ∧
    Wanderer.hazard_callback 1 (fun _ => 0) ⟨[⟨2⟩, ⟨5⟩]⟩ Wanderer.ctor = some Wanderer.ctor :=
  ⟨rfl, by simp,
    hazard_idle_no_bump 1 (fun _ => 0) ⟨[⟨2⟩, ⟨5⟩]⟩ Wanderer.ctor rfl (by simp)⟩

/-- C3. For every batch and every number `n` of deliveries, `hazard_callback`
run in state `during_process` returns the node as it was, so the state, every
timer and the published commands are those of no delivery at all. -/
theorem hazard_during_process_ignored (BUMP : Nat) (rand : Nat → Int)
    (msg : HazardDetectionVector) (n : Nat) (w : Wanderer)
    (hstate : w.state = Wanderer.during_process) :
    Wanderer.hazard_callback BUMP rand msg w = some w ∧
    Wanderer.hazard_callback_n BUMP rand msg n w = some w ∧
    Wanderer.hazard_callback_n BUMP rand msg n w = Wanderer.hazard_callback_n BUMP rand msg 0 w := by
  have h1 : Wanderer.hazard_callback BUMP rand msg w = some w := by
    simp [Wanderer.hazard_callback, hstate, Wanderer.during_process, Wanderer.idle,
      Wanderer.reverse, Wanderer.spinn, Wanderer.go_forward]
  have hn : Wanderer.hazard_callback_n BUMP rand msg n w = some w := by
    induction n with
    | zero => rfl
    | succ k ih => simp [Wanderer.hazard_callback_n, h1, ih]
  exact ⟨h1, hn, by rw [hn]; rfl⟩

/-- Witness of C3: three deliveries of a bump batch to a node in the reverse
phase. -/
theorem hazard_during_process_ignored_witness :
    ({ Wanderer.ctor with state := Wanderer.during_process } : Wanderer).state
      = Wanderer.during_process ∧
    Wanderer.hazard_callback_n 1 (fun _ => 0) ⟨[⟨1⟩]⟩ 3
      { Wanderer.ctor with state := Wanderer.during_process }
      = some { Wanderer.ctor with state := Wanderer.during_process } :=
  ⟨rfl, (hazard_during_process_ignored 1 (fun _ => 0) ⟨[⟨1⟩]⟩ 3
    { Wanderer.ctor with state := Wanderer.during_process } rfl).2.1⟩

/-- C4. For every batch whatsoever, `hazard_callback` run in state `reverse`
arms the Reverse timer and the ReverseStop timer, sets the state to
`during_process` and publishes nothing. -/
theorem hazard_reverse_arms (BUMP : Nat) (rand : Nat → Int) (msg : HazardDetectionVector)
    (w : Wanderer) (hstate : w.state = Wanderer.reverse) :
    ∃ w1, Wanderer.hazard_callback BUMP rand msg w = some w1 ∧
      w1.reverse_timer_.armed = true ∧
      w1.reverse_stop_timer_.armed = true ∧
      w1.state = Wanderer.during_process ∧
      w1.publisher_ = w.publisher_ := by
  exact ⟨_, hazard_callback_reverse_eq BUMP rand msg w hstate, rfl, rfl, rfl, rfl⟩

/-- Witness of C4: the empty batch delivered after a bump was handled. -/
theorem hazard_reverse_arms_witness :
    ({ Wanderer.ctor with state := Wanderer.reverse } : Wanderer).state = Wanderer.reverse ∧
    ∃ w1, Wanderer.hazard_callback 1 (fun _ => 0) ⟨[]⟩
        { Wanderer.ctor with state := Wanderer.reverse } = some w1 ∧
      w1.reverse_timer_.armed = true ∧
      w1.reverse_stop_timer_.armed = true ∧
      w1.state = Wanderer.during_process ∧
      w1.publisher_ = ({ Wanderer.ctor with state := Wanderer.reverse } : Wanderer).publisher_ :=
  ⟨rfl, hazard_reverse_arms 1 (fun _ => 0) ⟨[]⟩ { Wanderer.ctor with state := Wanderer.reverse } rfl⟩

/-- C5. `reverse_stop_callback` cancels the Reverse and the ReverseStop timers,
publishes exactly one motion command, all of whose six components are zero, and
sets the state to `spinn`; every other timer is left as it was. -/
theorem reverse_stop_callback_effect (w : Wanderer) :
    ∃ t, w.reverse_stop_callback.reverse_timer_.armed = false ∧
      w.reverse_stop_callback.reverse_stop_timer_.armed = false ∧
      w.reverse_stop_callback.publisher_ = w.publisher_ ++ [t] ∧ t.all_zero ∧
      w.reverse_stop_callback.state = Wanderer.spinn ∧
      w.reverse_stop_callback.forward_timer_ = w.forward_timer_ ∧
      w.reverse_stop_callback.forward_stop_timer_ = w.forward_stop_timer_ ∧
      w.reverse_stop_callback.spin_timer_ = w.spin_timer_ ∧
      w.reverse_stop_callback.spin_stop_timer_ = w.spin_stop_timer_ ∧
      w.reverse_stop_callback.full_stop_timer_ = w.full_stop_timer_ :=
  ⟨_, rfl, rfl, rfl, stop_command_all_zero, rfl, rfl, rfl, rfl, rfl, rfl⟩

/-- C6. For every batch and every `rand()` stream, `hazard_callback` run in
state `spinn` arms the Spin timer, makes `spin_stop_timer_` a running timer whose
period is exactly the value `d` of `random_between_two_int(1, 5)` in seconds,
sets the state to `during_process` and publishes nothing; the state reached is
the same for every other batch and every other stream. -/
theorem hazard_spinn_arms (BUMP : Nat) (rand : Nat → Int) (msg : HazardDetectionVector)
    (w : Wanderer) (hstate : w.state = Wanderer.spinn) :
    ∃ d w1, Wanderer.random_between_two_int 1 5 (rand w.rand_calls) = some d ∧
      Wanderer.hazard_callback BUMP rand msg w = some w1 ∧
      w1.spin_timer_.armed = true ∧
      w1.spin_stop_timer_ = some (create_wall_timer (d * 1000) Callback.spin_stop_callback) ∧
      armed_handle w1.spin_stop_timer_ = true ∧
      w1.state = Wanderer.during_process ∧
      w1.publisher_ = w.publisher_ ∧
      ∀ (rand2 : Nat → Int) (msg2 : HazardDetectionVector),
        ∃ w2, Wanderer.hazard_callback BUMP rand2 msg2 w = some w2 ∧ w2.state = w1.state := by
  refine ⟨_, _, random_between_two_int_1_5 _,
    hazard_callback_spinn_eq BUMP rand msg w _ hstate (random_between_two_int_1_5 _),
    rfl, rfl, rfl, rfl, rfl, ?_⟩
  intro rand2 msg2
  exact ⟨_, hazard_callback_spinn_eq BUMP rand2 msg2 w _ hstate (random_between_two_int_1_5 _),
    rfl⟩

/-- Witness of C6: a bump batch delivered after the reverse phase has ended,
with `rand()` returning 7. -/
theorem hazard_spinn_arms_witness :
    ({ Wanderer.ctor with state := Wanderer.spinn } : Wanderer).state = Wanderer.spinn ∧
    ∃ d w1, Wanderer.random_between_two_int 1 5 7 = some d ∧
      Wanderer.hazard_callback 1 (fun _ => 7) ⟨[⟨1⟩]⟩
        { Wanderer.ctor with state := Wanderer.spinn } = some w1 ∧
      w1.spin_timer_.armed = true ∧
      w1.spin_stop_timer_ = some (create_wall_timer (d * 1000) Callback.spin_stop_callback) ∧
      armed_handle w1.spin_stop_timer_ = true ∧
      w1.state = Wanderer.during_process ∧
      w1.publisher_ = ({ Wanderer.ctor with state := Wanderer.spinn } : Wanderer).publisher_ ∧
      ∀ (rand2 : Nat → Int) (msg2 : HazardDetectionVector),
        ∃ w2, Wanderer.hazard_callback 1 rand2 msg2
          { Wanderer.ctor with state := Wanderer.spinn } = some w2 ∧ w2.state = w1.state :=
  ⟨rfl, hazard_spinn_arms 1 (fun _ => 7) ⟨[⟨1⟩]⟩ { Wanderer.ctor with state := Wanderer.spinn } rfl⟩

/-- C7. `spin_stop_callback`, called when the SpinStop timer fires (so that
`spin_stop_timer_` is set), cancels the Spin and the SpinStop timers, publishes
exactly one motion command, all of whose six components are zero, and sets the
state to `go_forward`; every other timer is left as it was. -/
theorem spin_stop_callback_effect (w : Wanderer) (t : Timer)
    (hset : w.spin_stop_timer_ = some t) :
    ∃ w1 c, w.spin_stop_callback = some w1 ∧
      w1.spin_timer_.armed = false ∧
      armed_handle w1.spin_stop_timer_ = false ∧
      w1.publisher_ = w.publisher_ ++ [c] ∧ c.all_zero ∧
      w1.state = Wanderer.go_forward ∧
      w1.forward_timer_ = w.forward_timer_ ∧
      w1.forward_stop_timer_ = w.forward_stop_timer_ ∧
      w1.reverse_timer_ = w.reverse_timer_ ∧
      w1.reverse_stop_timer_ = w.reverse_stop_timer_ ∧
      w1.full_stop_timer_ = w.full_stop_timer_ :=
  ⟨_, _, spin_stop_callback_eq w t hset, rfl, rfl, rfl, stop_command_all_zero,
    rfl, rfl, rfl, rfl, rfl, rfl⟩

/-- Witness of C7: the SpinStop timer, created with a period of two seconds,
fires during the spin phase. -/
theorem spin_stop_callback_effect_witness :
    ({ Wanderer.ctor with
        spin_timer_ := Wanderer.ctor.spin_timer_.reset,
        spin_stop_timer_ := some (create_wall_timer 2000 Callback.spin_stop_callback),
        state := Wanderer.during_process } : Wanderer).spin_stop_timer_
      = some (create_wall_timer 2000 Callback.spin_stop_callback) ∧
    ∃ w1 c, Wanderer.spin_stop_callback { Wanderer.ctor with
        spin_timer_ := Wanderer.ctor.spin_timer_.reset,
        spin_stop_timer_ := some (create_wall_timer 2000 Callback.spin_stop_callback),
        state := Wanderer.during_process } = some w1 ∧
      w1.spin_timer_.armed = false ∧
      armed_handle w1.spin_stop_timer_ = false ∧
      w1.publisher_ = [c] ∧ c.all_zero ∧
      w1.state = Wanderer.go_forward ∧
      w1.forward_timer_ = Wanderer.ctor.forward_timer_ ∧
      w1.forward_stop_timer_ = Wanderer.ctor.forward_stop_timer_ ∧
      w1.reverse_timer_ = Wanderer.ctor.reverse_timer_ ∧
      w1.reverse_stop_timer_ = Wanderer.ctor.reverse_stop_timer_ ∧
      w1.full_stop_timer_ = Wanderer.ctor.full_stop_timer_ :=
  ⟨rfl, spin_stop_callback_effect { Wanderer.ctor with
        spin_timer_ := Wanderer.ctor.spin_timer_.reset,
        spin_stop_timer_ := some (create_wall_timer 2000 Callback.spin_stop_callback),
        state := Wanderer.during_process }
      (create_wall_timer 2000 Callback.spin_stop_callback) rfl⟩

/-- C8. For every batch whatsoever, `hazard_callback` run in state `go_forward`
arms the ForwardDrive timer, sets the state to `idle` and publishes nothing. -/
theorem hazard_go_forward_arms (BUMP : Nat) (rand : Nat → Int) (msg : HazardDetectionVector)
    (w : Wanderer) (hstate : w.state = Wanderer.go_forward) :
    ∃ w1, Wanderer.hazard_callback BUMP rand msg w = some w1 ∧
      w1.forward_timer_.armed = true ∧
      w1.state = Wanderer.idle ∧
      w1.publisher_ = w.publisher_ :=
  ⟨_, hazard_callback_go_forward_eq BUMP rand msg w hstate, rfl, rfl, rfl⟩

/-- Witness of C8: the empty batch delivered after the spin phase has ended,
the ForwardDrive timer still cancelled. -/
theorem hazard_go_forward_arms_witness :
    ({ Wanderer.ctor with forward_timer_ := Wanderer.ctor.forward_timer_.cancel,
                          state := Wanderer.go_forward } : Wanderer).state
      = Wanderer.go_forward ∧
    ∃ w1, Wanderer.hazard_callback 1 (fun _ => 0) ⟨[]⟩
        { Wanderer.ctor with forward_timer_ := Wanderer.ctor.forward_timer_.cancel,
                             state := Wanderer.go_forward } = some w1 ∧
      w1.forward_timer_.armed = true ∧
      w1.state = Wanderer.idle ∧
      w1.publisher_ = [] :=
  ⟨rfl, hazard_go_forward_arms 1 (fun _ => 0) ⟨[]⟩
    { Wanderer.ctor with forward_timer_ := Wanderer.ctor.forward_timer_.cancel,
                         state := Wanderer.go_forward } rfl⟩

/-! ## The random spin duration -/

/-- C9. For all `int` values `min < max` and every non-negative `rand()` value
the call of `random_between_two_int` returns a value `d` with `min ≤ d ≤ max`;
in particular the spin duration drawn by `random_between_two_int(1, 5)`
satisfies `1 ≤ d ≤ 5`. -/
theorem random_between_two_int_within (min max r : Int) (hmin : -2147483648 ≤ min)
    (hmax : max ≤ 2147483647) (hlt : min < max) (hr : 0 ≤ r) :
    (∃ d, Wanderer.random_between_two_int min max r = some d ∧ min ≤ d ∧ d ≤ max) ∧
    (∃ d, Wanderer.random_between_two_int 1 5 r = some d ∧ 1 ≤ d ∧ d ≤ 5) := by
  obtain ⟨d, hd, hlo, hhi⟩ := random_between_two_int_range min max r hmin hmax hlt hr
  obtain ⟨e, he, helo, hehi⟩ :=
    random_between_two_int_range 1 5 r (by decide) (by decide) (by decide) hr
  exact ⟨⟨d, hd, by omega, hhi⟩, ⟨e, he, by omega, hehi⟩⟩

/-- Witness of C9: the extreme `int` arguments, whose difference overflows,
and the largest `rand()` value of a 32-bit `int`. -/
theorem random_between_two_int_within_witness :
    (-2147483648 : Int) ≤ -2147483648 ∧ (2147483647 : Int) ≤ 2147483647 ∧
    (-2147483648 : Int) < 2147483647 ∧ (0 : Int) ≤ 2147483647 ∧
    (∃ d, Wanderer.random_between_two_int (-2147483648) 2147483647 2147483647 = some d ∧
      -2147483648 ≤ d ∧ d ≤ 2147483647) ∧
    (∃ d, Wanderer.random_between_two_int 1 5 2147483647 = some d ∧ 1 ≤ d ∧ d ≤ 5) :=
  ⟨by decide, by decide, by decide, by decide,
    random_between_two_int_within (-2147483648) 2147483647 2147483647
      (by decide) (by decide) (by decide) (by decide)⟩

/-- C10, refuted as stated: no non-negative `rand()` value makes
`random_between_two_int(1, 5)` return 6. -/
theorem random_1_5_never_six :
    ¬ ∃ r : Int, 0 ≤ r ∧ Wanderer.random_between_two_int 1 5 r = some 6 := by
  rintro ⟨r, hr, h6⟩
  obtain ⟨d, hd, _, hhi⟩ :=
    random_between_two_int_range 1 5 r (by decide) (by decide) (by decide) hr
  rw [h6] at hd
  have h : (6 : Int) = d := Option.some.inj hd
  omega

/-- C10, amended. For arguments `(1, 5)` the results of
`random_between_two_int` range over `2 .. 5`: every non-negative `rand()` value
gives a result `d` with `2 ≤ d ≤ 5`, and each of 2, 3, 4 and 5 is the result for
some `rand()` value, a non-negative `int`. -/
theorem random_1_5_range (r : Int) (hr : 0 ≤ r) :
    (∃ d, Wanderer.random_between_two_int 1 5 r = some d ∧ 2 ≤ d ∧ d ≤ 5) ∧
    (∀ v : Int, 2 ≤ v → v ≤ 5 →
      ∃ r2 : Int, 0 ≤ r2 ∧ r2 ≤ 2147483647 ∧
        Wanderer.random_between_two_int 1 5 r2 = some v) := by
  constructor
  · obtain ⟨d, hd, hlo, hhi⟩ :=
      random_between_two_int_range 1 5 r (by decide) (by decide) (by decide) hr
    exact ⟨d, hd, by omega, hhi⟩
  · intro v hlo hhi
    refine ⟨v - 2, by omega, by omega, ?_⟩
    interval_cases v <;> decide

/-- Witness of C10 as amended, at the `rand()` value 7. -/
theorem random_1_5_range_witness :
    (0 : Int) ≤ 7 ∧
    (∃ d, Wanderer.random_between_two_int 1 5 7 = some d ∧ 2 ≤ d ∧ d ≤ 5) ∧
    (∀ v : Int, 2 ≤ v → v ≤ 5 →
      ∃ r2 : Int, 0 ≤ r2 ∧ r2 ≤ 2147483647 ∧
        Wanderer.random_between_two_int 1 5 r2 = some v) :=
  ⟨by decide, random_1_5_range 7 (by decide)⟩

/-! ## Reachable configurations -/

/-- A cancelled timer is not armed. -/
theorem armed_cancel (t : Timer) : t.cancel.armed = false := rfl

/-- A reset timer is armed. -/
theorem armed_reset (t : Timer) : t.reset.armed = true := rfl

/-- Cancelling a timer keeps its binding. -/
theorem callback_cancel (t : Timer) : t.cancel.callback = t.callback := rfl

/-- Resetting a timer keeps its binding. -/
theorem callback_reset (t : Timer) : t.reset.callback = t.callback := rfl

/-- A newly created timer is armed. -/
theorem armed_create (p : Int) (cb : Callback) : (create_wall_timer p cb).armed = true := rfl

/-- A newly created timer is bound to the given member function. -/
theorem callback_create (p : Int) (cb : Callback) : (create_wall_timer p cb).callback = cb := rfl

/-- The constructed node satisfies the phase invariant. -/
theorem consistent_ctor : Wanderer.ctor.consistent := by
  refine ⟨⟨rfl, rfl, rfl, rfl, rfl, ?_, rfl, rfl⟩, Or.inl ⟨rfl, rfl⟩⟩
  intro t ht
  cases ht

/-- Every event that can occur in a configuration satisfying the phase
invariant leads to a configuration satisfying it. -/
theorem consistent_step (BUMP : Nat) (rand : Nat → Int) (e : Event) (w w1 : Wanderer)
    (hc : w.consistent) (hstep : Wanderer.step BUMP rand e w = some w1) : w1.consistent := by
  obtain ⟨⟨hf, hs, hr, hrs, hfs, hss, hfull, hfsa⟩, hphase⟩ := hc
  obtain ⟨pub, rc, full, st, sst, rt, rst, ft, fst, ip, rd, sd, state⟩ := w
  simp only at hf hs hr hrs hfs hss hfull hfsa
  simp only [Wanderer.armed_pattern, Prod.mk.injEq] at hphase
  rcases hphase with ⟨h0, h1, h2, h3, h4, h5⟩ | ⟨h0, h1, h2, h3, h4, h5⟩ |
    ⟨h0, h1, h2, h3, h4, h5⟩ | ⟨h0, h1, h2, h3, h4, h5⟩ | ⟨h0, h1, h2, h3, h4, h5⟩ |
    ⟨h0, h1, h2, h3, h4, h5⟩ <;> subst h0 <;> cases e <;> cases sst <;>
  (try simp only [armed_handle, Option.some.injEq, forall_eq'] at hss h5) <;>
  simp [Wanderer.step, Wanderer.fire, Wanderer.call, Wanderer.hazard_callback,
    Wanderer.forward_callback, Wanderer.spin_callback, Wanderer.reverse_callback,
    Wanderer.reverse_stop_callback, Wanderer.forward_stop_callback, Wanderer.spin_stop_callback,
    Wanderer.publish, Wanderer.idle, Wanderer.reverse, Wanderer.spinn, Wanderer.go_forward,
    Wanderer.during_process, random_between_two_int_1_5, armed_handle,
    *] at hstep <;>
  (try split at hstep) <;> (try simp only [Option.some.injEq] at hstep) <;> subst hstep <;>
  simp [Wanderer.consistent, Wanderer.bound, Wanderer.armed_pattern, armed_handle, armed_cancel,
    armed_reset, callback_cancel, callback_reset, armed_create, callback_create,
    Wanderer.idle, Wanderer.reverse, Wanderer.spinn, Wanderer.go_forward,
    Wanderer.during_process, *]

/-- A sequence of events starting with `e` is the dispatch of `e` followed by
the dispatch of the rest. -/
theorem run_cons_eq_some (BUMP : Nat) (rand : Nat → Int) (e : Event) (es : List Event)
    (w w2 : Wanderer) :
    Wanderer.run BUMP rand (e :: es) w = some w2 ↔
      ∃ w1, Wanderer.step BUMP rand e w = some w1 ∧ Wanderer.run BUMP rand es w1 = some w2 := by
  simp [Wanderer.run, Option.bind_eq_some]

/-- The phase invariant is kept along every sequence of events. -/
theorem consistent_run (BUMP : Nat) (rand : Nat → Int) (es : List Event) (w w1 : Wanderer)
    (hc : w.consistent) (hrun : Wanderer.run BUMP rand es w = some w1) : w1.consistent := by
  induction es generalizing w with
  | nil =>
    simp only [Wanderer.run, Option.some.injEq] at hrun
    exact hrun ▸ hc
  | cons e es ih =>
    obtain ⟨wm, hstep, hrest⟩ := (run_cons_eq_some BUMP rand e es w w1).mp hrun
    exact ih wm (consistent_step BUMP rand e w wm hc hstep) hrest

/-- Every configuration reachable from the constructed node satisfies the
phase invariant. -/
theorem consistent_of_reachable (BUMP : Nat) (rand : Nat → Int) (es : List Event)
    (w : Wanderer) (hrun : Wanderer.run BUMP rand es Wanderer.ctor = some w) : w.consistent :=
  consistent_run BUMP rand es Wanderer.ctor w consistent_ctor hrun

/-- In a configuration satisfying the phase invariant, a timer event other
than a hazard batch can occur only in state `idle` or `during_process`. -/
theorem step_timer_none (BUMP : Nat) (rand : Nat → Int) (e : Event) (w : Wanderer)
    (hc : w.consistent)
    (hstate : w.state = Wanderer.reverse ∨ w.state = Wanderer.spinn ∨
      w.state = Wanderer.go_forward)
    (hne : ∀ msg, e ≠ Event.hazard msg) : Wanderer.step BUMP rand e w = none := by
  obtain ⟨⟨hf, hs, hr, hrs, hfs, hss, hfull, hfsa⟩, hphase⟩ := hc
  obtain ⟨pub, rc, full, st, sst, rt, rst, ft, fst, ip, rd, sd, state⟩ := w
  simp only at hf hs hr hrs hfs hss hfull hfsa hstate
  simp only [Wanderer.armed_pattern, Prod.mk.injEq] at hphase
  rcases hphase with ⟨h0, h1, h2, h3, h4, h5⟩ | ⟨h0, h1, h2, h3, h4, h5⟩ |
    ⟨h0, h1, h2, h3, h4, h5⟩ | ⟨h0, h1, h2, h3, h4, h5⟩ | ⟨h0, h1, h2, h3, h4, h5⟩ |
    ⟨h0, h1, h2, h3, h4, h5⟩ <;> subst h0 <;>
  simp [Wanderer.idle, Wanderer.reverse, Wanderer.spinn, Wanderer.go_forward,
    Wanderer.during_process] at hstate <;>
  cases e <;> cases sst <;>
  (try simp only [armed_handle, Option.some.injEq, forall_eq'] at hss h5) <;>
  simp [Wanderer.step, Wanderer.fire, *] at hne ⊢

/-! ## Invariants of the reachable configurations -/

/-- C12. In every configuration reachable from the constructed node by hazard
batches and firings of armed timers, at most one of the ForwardDrive, Reverse
and Spin timers is armed. -/
theorem at_most_one_motion_timer (BUMP : Nat) (rand : Nat → Int) (es : List Event)
    (w : Wanderer) (hrun : Wanderer.run BUMP rand es Wanderer.ctor = some w) :
    ¬ (w.forward_timer_.armed = true ∧ w.reverse_timer_.armed = true) ∧
    ¬ (w.forward_timer_.armed = true ∧ w.spin_timer_.armed = true) ∧
    ¬ (w.reverse_timer_.armed = true ∧ w.spin_timer_.armed = true) := by
  obtain ⟨_, hphase⟩ := consistent_of_reachable BUMP rand es w hrun
  simp only [Wanderer.armed_pattern, Prod.mk.injEq] at hphase
  rcases hphase with ⟨h0, h1, h2, h3, h4, h5⟩ | ⟨h0, h1, h2, h3, h4, h5⟩ |
    ⟨h0, h1, h2, h3, h4, h5⟩ | ⟨h0, h1, h2, h3, h4, h5⟩ | ⟨h0, h1, h2, h3, h4, h5⟩ |
    ⟨h0, h1, h2, h3, h4, h5⟩ <;> simp [h1, h2, h4]

/-- Witness of C12: the configuration reached when a bump batch and then an
empty batch have been handled, the reverse phase running. -/
theorem at_most_one_motion_timer_witness :
    Wanderer.run 1 (fun _ => 0) [Event.hazard ⟨[⟨1⟩]⟩, Event.hazard ⟨[]⟩] Wanderer.ctor
      = some { Wanderer.ctor with
          publisher_ := [{ linear := { x := 0.0, y := 0.0, z := 0.0 },
                           angular := { x := 0.0, y := 0.0, z := 0.0 } }],
          forward_timer_ := Wanderer.ctor.forward_timer_.cancel,
          reverse_timer_ := Wanderer.ctor.reverse_timer_.reset,
          reverse_stop_timer_ := Wanderer.ctor.reverse_stop_timer_.reset,
          state := Wanderer.during_process } ∧
    ¬ ((Wanderer.ctor.forward_timer_.cancel).armed = true ∧
        (Wanderer.ctor.reverse_timer_.reset).armed = true) ∧
    ¬ ((Wanderer.ctor.forward_timer_.cancel).armed = true ∧
        Wanderer.ctor.spin_timer_.armed = true) ∧
    ¬ ((Wanderer.ctor.reverse_timer_.reset).armed = true ∧
        Wanderer.ctor.spin_timer_.armed = true) :=
  ⟨rfl, at_most_one_motion_timer 1 (fun _ => 0) [Event.hazard ⟨[⟨1⟩]⟩, Event.hazard ⟨[]⟩]
    _ rfl⟩

/-- C13. Right after construction the state is `idle`, the ForwardDrive timer
is armed, and the Spin, Reverse, ReverseStop, ForwardStop and SpinStop timers
are not armed (the SpinStop handle is still null). -/
theorem ctor_configuration :
    Wanderer.ctor.state = Wanderer.idle ∧
    Wanderer.ctor.forward_timer_.armed = true ∧
    Wanderer.ctor.spin_timer_.armed = false ∧
    Wanderer.ctor.reverse_timer_.armed = false ∧
    Wanderer.ctor.reverse_stop_timer_.armed = false ∧
    Wanderer.ctor.forward_stop_timer_.armed = false ∧
    armed_handle Wanderer.ctor.spin_stop_timer_ = false ∧
    Wanderer.ctor.spin_stop_timer_ = none :=
  ⟨rfl, rfl, rfl, rfl, rfl, rfl, rfl, rfl⟩

/-- C15. In every reachable configuration whose state is `reverse`, `spinn` or
`go_forward` no timer at all is armed, so no timer event can occur there: after
a bump is handled in `idle` the Reverse and ReverseStop timers stay cancelled,
and nothing is published, until a further hazard batch is handled. -/
theorem no_timer_armed_between_phases (BUMP : Nat) (rand : Nat → Int) (es : List Event)
    (w : Wanderer) (hrun : Wanderer.run BUMP rand es Wanderer.ctor = some w)
    (hstate : w.state = Wanderer.reverse ∨ w.state = Wanderer.spinn ∨
      w.state = Wanderer.go_forward) :
    (w.forward_timer_.armed = false ∧ w.reverse_timer_.armed = false ∧
      w.reverse_stop_timer_.armed = false ∧ w.spin_timer_.armed = false ∧
      armed_handle w.spin_stop_timer_ = false ∧ w.forward_stop_timer_.armed = false ∧
      armed_handle w.full_stop_timer_ = false) ∧
    (∀ e : Event, (∀ msg, e ≠ Event.hazard msg) → Wanderer.step BUMP rand e w = none) := by
  have hc := consistent_of_reachable BUMP rand es w hrun
  refine ⟨?_, fun e hne => step_timer_none BUMP rand e w hc hstate hne⟩
  obtain ⟨⟨_, _, _, _, _, _, hfull, hfsa⟩, hphase⟩ := hc
  simp only [Wanderer.armed_pattern, Prod.mk.injEq] at hphase
  rcases hphase with ⟨h0, h1, h2, h3, h4, h5⟩ | ⟨h0, h1, h2, h3, h4, h5⟩ |
    ⟨h0, h1, h2, h3, h4, h5⟩ | ⟨h0, h1, h2, h3, h4, h5⟩ | ⟨h0, h1, h2, h3, h4, h5⟩ |
    ⟨h0, h1, h2, h3, h4, h5⟩ <;>
  simp [h0, Wanderer.idle, Wanderer.reverse, Wanderer.spinn, Wanderer.go_forward,
    Wanderer.during_process] at hstate <;>
  exact ⟨h1, h2, h3, h4, h5, hfsa, by rw [hfull]; rfl⟩

/-- Witness of C15: the configuration right after a bump batch was handled in
`idle`. -/
theorem no_timer_armed_between_phases_witness :
    Wanderer.run 1 (fun _ => 0) [Event.hazard ⟨[⟨1⟩]⟩] Wanderer.ctor
      = some { Wanderer.ctor.forward_stop_callback with state := Wanderer.reverse } ∧
    (Wanderer.ctor.forward_stop_callback.forward_timer_.armed = false ∧
      Wanderer.ctor.reverse_timer_.armed = false ∧
      Wanderer.ctor.reverse_stop_timer_.armed = false ∧
      Wanderer.ctor.spin_timer_.armed = false ∧
      armed_handle Wanderer.ctor.spin_stop_timer_ = false ∧
      Wanderer.ctor.forward_stop_timer_.armed = false ∧
      armed_handle Wanderer.ctor.full_stop_timer_ = false) ∧
    (∀ e : Event, (∀ msg, e ≠ Event.hazard msg) →
      Wanderer.step 1 (fun _ => 0) e
        { Wanderer.ctor.forward_stop_callback with state := Wanderer.reverse } = none) :=
  ⟨rfl, no_timer_armed_between_phases 1 (fun _ => 0) [Event.hazard ⟨[⟨1⟩]⟩]
    { Wanderer.ctor.forward_stop_callback with state := Wanderer.reverse } rfl (Or.inl rfl)⟩

/-- C16. In every reachable configuration a stop timer (ReverseStop or
SpinStop) is armed exactly when the state is `during_process`; there exactly
one of the pairs Reverse with ReverseStop, Spin with SpinStop is armed; a stop
timer fires in no other state, and in `during_process` a stop event can occur. -/
theorem stop_timer_iff_during_process (BUMP : Nat) (rand : Nat → Int) (es : List Event)
    (w : Wanderer) (hrun : Wanderer.run BUMP rand es Wanderer.ctor = some w) :
    ((w.reverse_stop_timer_.armed = true ∨ armed_handle w.spin_stop_timer_ = true) ↔
      w.state = Wanderer.during_process) ∧
    (w.state = Wanderer.during_process →
      (w.reverse_timer_.armed = true ∧ w.reverse_stop_timer_.armed = true ∧
        w.spin_timer_.armed = false ∧ armed_handle w.spin_stop_timer_ = false) ∨
      (w.spin_timer_.armed = true ∧ armed_handle w.spin_stop_timer_ = true ∧
        w.reverse_timer_.armed = false ∧ w.reverse_stop_timer_.armed = false)) ∧
    (∀ w1, Wanderer.step BUMP rand Event.reverse_stop_timer_ w = some w1 ∨
        Wanderer.step BUMP rand Event.spin_stop_timer_ w = some w1 →
      w.state = Wanderer.during_process) ∧
    (w.state = Wanderer.during_process →
      ∃ w1, Wanderer.step BUMP rand Event.reverse_stop_timer_ w = some w1 ∨
        Wanderer.step BUMP rand Event.spin_stop_timer_ w = some w1) := by
  obtain ⟨⟨hf, hs, hr, hrs, hfs, hss, hfull, hfsa⟩, hphase⟩ :=
    consistent_of_reachable BUMP rand es w hrun
  obtain ⟨pub, rc, full, st, sst, rt, rst, ft, fst, ip, rd, sd, state⟩ := w
  simp only at hf hs hr hrs hfs hss hfull hfsa
  simp only [Wanderer.armed_pattern, Prod.mk.injEq] at hphase
  rcases hphase with ⟨h0, h1, h2, h3, h4, h5⟩ | ⟨h0, h1, h2, h3, h4, h5⟩ |
    ⟨h0, h1, h2, h3, h4, h5⟩ | ⟨h0, h1, h2, h3, h4, h5⟩ | ⟨h0, h1, h2, h3, h4, h5⟩ |
    ⟨h0, h1, h2, h3, h4, h5⟩ <;> subst h0 <;> cases sst <;>
  (try simp only [armed_handle, Option.some.injEq, forall_eq'] at hss h5) <;>
  simp [Wanderer.step, Wanderer.fire, Wanderer.call, Wanderer.spin_stop_callback,
    Wanderer.idle, Wanderer.reverse, Wanderer.spinn, Wanderer.go_forward,
    Wanderer.during_process, armed_handle, *]

/-- Witness of C16: the configuration reached when a bump batch and then an
empty batch have been handled, the reverse phase running. -/
theorem stop_timer_iff_during_process_witness :
    Wanderer.run 1 (fun _ => 0) [Event.hazard ⟨[⟨1⟩]⟩, Event.hazard ⟨[]⟩] Wanderer.ctor
      = some { Wanderer.ctor with
          publisher_ := [{ linear := { x := 0.0, y := 0.0, z := 0.0 },
                           angular := { x := 0.0, y := 0.0, z := 0.0 } }],
          forward_timer_ := Wanderer.ctor.forward_timer_.cancel,
          reverse_timer_ := Wanderer.ctor.reverse_timer_.reset,
          reverse_stop_timer_ := Wanderer.ctor.reverse_stop_timer_.reset,
          state := Wanderer.during_process } ∧
    (((Wanderer.ctor.reverse_stop_timer_.reset).armed = true ∨
        armed_handle Wanderer.ctor.spin_stop_timer_ = true) ↔
      Wanderer.during_process = Wanderer.during_process) :=
  ⟨rfl, (stop_timer_iff_during_process 1 (fun _ => 0)
    [Event.hazard ⟨[⟨1⟩]⟩, Event.hazard ⟨[]⟩] _ rfl).1⟩

/-! ## Published commands -/

/-- Every event appends its commands to the published list, and every command
it appends moves in the plane only. This holds in every configuration. -/
theorem step_publisher (BUMP : Nat) (rand : Nat → Int) (e : Event) (w w1 : Wanderer)
    (hstep : Wanderer.step BUMP rand e w = some w1) :
    w1.publisher_ = w.publisher_ ++ Wanderer.emitted_since w w1 ∧
    ∀ c ∈ Wanderer.emitted_since w w1, c.planar := by
  obtain ⟨pub, rc, full, st, sst, rt, rst, ft, fst, ip, rd, sd, state⟩ := w
  cases e <;>
  simp only [Wanderer.step, Wanderer.fire, Wanderer.call, Wanderer.hazard_callback,
    Wanderer.forward_callback, Wanderer.spin_callback, Wanderer.reverse_callback,
    Wanderer.reverse_stop_callback, Wanderer.forward_stop_callback, Wanderer.spin_stop_callback,
    Wanderer.publish, random_between_two_int_1_5] at hstep <;>
  (repeat' split at hstep) <;> cases hstep <;>
  norm_num [Wanderer.emitted_since, Twist.planar]

/-- C14. Every command an event makes the node publish has its linear y and z
and angular x and y components zero and never has both linear x and angular z
nonzero; `forward_callback` publishes linear x 0.1 with angular z 0,
`reverse_callback` linear x -0.0001 with angular z 0, `spin_callback` linear x 0
with angular z 0.5, and the stop handlers publish the all-zero command. -/
theorem published_commands_planar (BUMP : Nat) (rand : Nat → Int) (e : Event)
    (w w1 : Wanderer) (hstep : Wanderer.step BUMP rand e w = some w1) :
    (∀ c ∈ Wanderer.emitted_since w w1, c.planar) ∧
    (∃ c, w.forward_callback.publisher_ = w.publisher_ ++ [c] ∧
      c.linear.x = 0.1 ∧ c.angular.z = 0 ∧ c.planar) ∧
    (∃ c, w.reverse_callback.publisher_ = w.publisher_ ++ [c] ∧
      c.linear.x = -0.0001 ∧ c.angular.z = 0 ∧ c.planar) ∧
    (∃ c, w.spin_callback.publisher_ = w.publisher_ ++ [c] ∧
      c.linear.x = 0 ∧ c.angular.z = 0.5 ∧ c.planar) ∧
    (∃ c, w.forward_stop_callback.publisher_ = w.publisher_ ++ [c] ∧ c.all_zero) ∧
    (∃ c, w.reverse_stop_callback.publisher_ = w.publisher_ ++ [c] ∧ c.all_zero) ∧
    (∃ c, w.full_stop_callback.publisher_ = w.publisher_ ++ [c] ∧ c.all_zero) ∧
    (∀ t, w.spin_stop_timer_ = some t →
      ∃ w2 c, w.spin_stop_callback = some w2 ∧
        w2.publisher_ = w.publisher_ ++ [c] ∧ c.all_zero) := by
  refine ⟨(step_publisher BUMP rand e w w1 hstep).2, ⟨_, rfl, rfl, ?_, ?_⟩, ⟨_, rfl, rfl, ?_, ?_⟩,
    ⟨_, rfl, ?_, rfl, ?_⟩, ⟨_, rfl, stop_command_all_zero⟩, ⟨_, rfl, stop_command_all_zero⟩,
    ⟨_, rfl, stop_command_all_zero⟩,
    fun t ht => ⟨_, ⟨⟨0.0, 0.0, 0.0⟩, ⟨0.0, 0.0, 0.0⟩⟩, spin_stop_callback_eq w t ht, rfl,
      stop_command_all_zero⟩⟩
  all_goals norm_num [Twist.planar]

/-- Witness of C14: the ForwardDrive timer fires in the constructed node. -/
theorem published_commands_planar_witness :
    Wanderer.step 1 (fun _ => 0) Event.forward_timer_ Wanderer.ctor
      = some Wanderer.ctor.forward_callback ∧
    (∀ c ∈ Wanderer.emitted_since Wanderer.ctor Wanderer.ctor.forward_callback, c.planar) :=
  ⟨rfl, (published_commands_planar 1 (fun _ => 0) Event.forward_timer_ Wanderer.ctor
    Wanderer.ctor.forward_callback rfl).1⟩

/-- C20. In every configuration each of the tick handlers `forward_callback`,
`reverse_callback` and `spin_callback` publishes exactly one command and leaves
the state and every timer as they were. -/
theorem tick_handlers_frame (w : Wanderer) :
    ((∃ c, w.forward_callback.publisher_ = w.publisher_ ++ [c]) ∧
      w.same_control w.forward_callback) ∧
    ((∃ c, w.reverse_callback.publisher_ = w.publisher_ ++ [c]) ∧
      w.same_control w.reverse_callback) ∧
    ((∃ c, w.spin_callback.publisher_ = w.publisher_ ++ [c]) ∧
      w.same_control w.spin_callback) :=
  ⟨⟨⟨_, rfl⟩, rfl, rfl, rfl, rfl, rfl, rfl, rfl, rfl⟩,
    ⟨⟨_, rfl⟩, rfl, rfl, rfl, rfl, rfl, rfl, rfl, rfl⟩,
    ⟨⟨_, rfl⟩, rfl, rfl, rfl, rfl, rfl, rfl, rfl, rfl⟩⟩

/-! ## The values of the random spin duration -/

/-- When the difference `max - min` fits an `int`, every value in
`min + 1 .. max` is the result of `random_between_two_int` for some `rand()`
value that is itself a non-negative `int`. -/
theorem random_between_two_int_attains (min max v : Int) (hmin : -2147483648 ≤ min)
    (hmax : max ≤ 2147483647) (hfit : max - min ≤ 2147483647)
    (hlo : min + 1 ≤ v) (hhi : v ≤ max) :
    ∃ r : Int, 0 ≤ r ∧ r ≤ 2147483647 ∧ Wanderer.random_between_two_int min max r = some v := by
  refine ⟨v - min - 1, by omega, by omega, ?_⟩
  have hd : int32 (max - min) = max - min := int32_of_range _ (by omega) hfit
  have hq : Int.tmod (v - min - 1) (max - min) = v - min - 1 :=
    Int.tmod_eq_of_lt (by omega) (by omega)
  unfold Wanderer.random_between_two_int
  simp only [hd, hq]
  rw [if_neg (by omega)]
  have h1 : int32 (v - min - 1 + min) = v - min - 1 + min := int32_of_range _ (by omega) (by omega)
  rw [h1, int32_of_range _ (by omega) (by omega)]
  congr 1
  omega

/-- C18, refuted as stated: for the `int` arguments `min = -2147483648` and
`max = 2147483647` the value 0, which lies in `min + 1 .. max`, is the result
for no non-negative `rand()` value. -/
theorem random_between_two_int_misses_zero :
    ¬ ∃ r : Int, 0 ≤ r ∧
      Wanderer.random_between_two_int (-2147483648) 2147483647 r = some 0 := by
  rintro ⟨r, _, h⟩
  have hd : int32 (2147483647 - -2147483648) = -1 := by decide
  simp only [Wanderer.random_between_two_int, hd, Int.tmod_neg, Int.tmod_one] at h
  revert h
  decide

/-- C18, amended. For all `int` values `min < max` whose difference fits an
`int`, the values `random_between_two_int(min, max)` returns over all `rand()`
values, the non-negative `int` values, are exactly `min + 1 .. max`; for the
call site `(1, 5)` they are exactly 2, 3, 4 and 5. -/
theorem random_between_two_int_image (min max : Int) (hmin : -2147483648 ≤ min)
    (hmax : max ≤ 2147483647) (hlt : min < max) (hfit : max - min ≤ 2147483647) :
    (∀ r : Int, 0 ≤ r → ∃ d, Wanderer.random_between_two_int min max r = some d) ∧
    (∀ v : Int,
      (∃ r : Int, 0 ≤ r ∧ r ≤ 2147483647 ∧
        Wanderer.random_between_two_int min max r = some v) ↔
      (min + 1 ≤ v ∧ v ≤ max)) ∧
    (∀ v : Int,
      (∃ r : Int, 0 ≤ r ∧ r ≤ 2147483647 ∧
        Wanderer.random_between_two_int 1 5 r = some v) ↔
      (v = 2 ∨ v = 3 ∨ v = 4 ∨ v = 5)) := by
  refine ⟨?_, ?_, ?_⟩
  · intro r hr
    obtain ⟨d, hd, _, _⟩ := random_between_two_int_range min max r hmin hmax hlt hr
    exact ⟨d, hd⟩
  · intro v
    constructor
    · rintro ⟨r, hr, _, hv⟩
      obtain ⟨d, hd, hlo, hhi⟩ := random_between_two_int_range min max r hmin hmax hlt hr
      rw [hv] at hd
      have h : v = d := Option.some.inj hd
      omega
    · rintro ⟨hlo, hhi⟩
      exact random_between_two_int_attains min max v hmin hmax hfit hlo hhi
  · intro v
    constructor
    · rintro ⟨r, hr, _, hv⟩
      obtain ⟨d, hd, hlo, hhi⟩ :=
        random_between_two_int_range 1 5 r (by decide) (by decide) (by decide) hr
      rw [hv] at hd
      have h : v = d := Option.some.inj hd
      omega
    · intro hv
      exact random_between_two_int_attains 1 5 v (by decide) (by decide)
        (by decide) (by omega) (by omega)

/-- Witness of C18 as amended, at the arguments of the call site. -/
theorem random_between_two_int_image_witness :
    (-2147483648 : Int) ≤ 1 ∧ (5 : Int) ≤ 2147483647 ∧ (1 : Int) < 5 ∧
    (5 - 1 : Int) ≤ 2147483647 ∧
    (∀ v : Int,
      (∃ r : Int, 0 ≤ r ∧ r ≤ 2147483647 ∧
        Wanderer.random_between_two_int 1 5 r = some v) ↔
      (1 + 1 ≤ v ∧ v ≤ 5)) :=
  ⟨by decide, by decide, by decide, by decide,
    (random_between_two_int_image 1 5 (by decide) (by decide) (by decide) (by decide)).2.1⟩

/-! ## One full recovery cycle -/

/-- C19. From the constructed node, for every batch `b` holding a bump, all
batches `h1`, `h2`, `h3` and every `rand()` stream, the events hazard `b`,
hazard `h1`, ReverseStop fire, hazard `h2`, SpinStop fire, hazard `h3` can all
occur in this order and end in state `idle` with the ForwardDrive timer the only
armed timer; the commands published by the six events are exactly three, each
all-zero. -/
theorem recovery_cycle (BUMP : Nat) (rand : Nat → Int) (b h1 h2 h3 : HazardDetectionVector)
    (hbump : ∃ hd ∈ b.detections, hd.type = BUMP) :
    ∃ w c1 c2 c3,
      Wanderer.run BUMP rand
        [Event.hazard b, Event.hazard h1, Event.reverse_stop_timer_, Event.hazard h2,
          Event.spin_stop_timer_, Event.hazard h3] Wanderer.ctor = some w ∧
      w.state = Wanderer.idle ∧
      w.forward_timer_.armed = true ∧ w.reverse_timer_.armed = false ∧
      w.reverse_stop_timer_.armed = false ∧ w.spin_timer_.armed = false ∧
      armed_handle w.spin_stop_timer_ = false ∧ w.forward_stop_timer_.armed = false ∧
      armed_handle w.full_stop_timer_ = false ∧
      Wanderer.emitted_since Wanderer.ctor w = [c1, c2, c3] ∧
      c1.all_zero ∧ c2.all_zero ∧ c3.all_zero := by
  have hscan := (scan_detections_eq_true BUMP b.detections).mpr hbump
  refine ⟨_, _, _, _,
    (run_cons_eq_some BUMP rand _ _ _ _).mpr
      ⟨_, hazard_callback_idle_bump_eq BUMP rand b Wanderer.ctor rfl hscan,
    (run_cons_eq_some BUMP rand _ _ _ _).mpr
      ⟨_, hazard_callback_reverse_eq BUMP rand h1 _ rfl,
    (run_cons_eq_some BUMP rand _ _ _ _).mpr ⟨_, rfl,
    (run_cons_eq_some BUMP rand _ _ _ _).mpr
      ⟨_, hazard_callback_spinn_eq BUMP rand h2 _ _ rfl (random_between_two_int_1_5 _),
    (run_cons_eq_some BUMP rand _ _ _ _).mpr ⟨_, rfl,
    (run_cons_eq_some BUMP rand _ _ _ _).mpr
      ⟨_, hazard_callback_go_forward_eq BUMP rand h3 _ rfl, rfl⟩⟩⟩⟩⟩⟩,
    rfl, rfl, rfl, rfl, rfl, rfl, rfl, rfl, rfl,
    stop_command_all_zero, stop_command_all_zero, stop_command_all_zero⟩

/-- Witness of C19: a bump batch, then three empty batches, with `rand()`
returning 7. -/
theorem recovery_cycle_witness :
    (∃ hd ∈ [(⟨1⟩ : HazardDetection)], hd.type = 1) ∧
    ∃ w c1 c2 c3,
      Wanderer.run 1 (fun _ => 7)
        [Event.hazard ⟨[⟨1⟩]⟩, Event.hazard ⟨[]⟩, Event.reverse_stop_timer_, Event.hazard ⟨[]⟩,
          Event.spin_stop_timer_, Event.hazard ⟨[]⟩] Wanderer.ctor = some w ∧
      w.state = Wanderer.idle ∧
      w.forward_timer_.armed = true ∧ w.reverse_timer_.armed = false ∧
      w.reverse_stop_timer_.armed = false ∧ w.spin_timer_.armed = false ∧
      armed_handle w.spin_stop_timer_ = false ∧ w.forward_stop_timer_.armed = false ∧
      armed_handle w.full_stop_timer_ = false ∧
      Wanderer.emitted_since Wanderer.ctor w = [c1, c2, c3] ∧
      c1.all_zero ∧ c2.all_zero ∧ c3.all_zero :=
  ⟨⟨⟨1⟩, by simp, rfl⟩,
    recovery_cycle 1 (fun _ => 7) ⟨[⟨1⟩]⟩ ⟨[]⟩ ⟨[]⟩ ⟨[]⟩ ⟨⟨1⟩, by simp, rfl⟩⟩

/-! ## Forward commands and the recovery maneuver -/

/-- In a configuration that satisfies the phase invariant and is outside
`idle`, an event other than a hazard batch handled in `go_forward` leaves the state outside `idle` and
publishes no command with linear x 0.1. -/
theorem step_outside_idle (BUMP : Nat) (rand : Nat → Int) (e : Event) (w w1 : Wanderer)
    (hc : w.consistent) (hidle : w.state ≠ Wanderer.idle)
    (hgo : ∀ msg, e = Event.hazard msg → w.state ≠ Wanderer.go_forward)
    (hstep : Wanderer.step BUMP rand e w = some w1) :
    w1.state ≠ Wanderer.idle ∧ ∀ c ∈ Wanderer.emitted_since w w1, c.linear.x ≠ 0.1 := by
  obtain ⟨⟨hf, hs, hr, hrs, hfs, hss, hfull, hfsa⟩, hphase⟩ := hc
  obtain ⟨pub, rc, full, st, sst, rt, rst, ft, fst, ip, rd, sd, state⟩ := w
  simp only at hf hs hr hrs hfs hss hfull hfsa hidle hgo
  simp only [Wanderer.armed_pattern, Prod.mk.injEq] at hphase
  rcases hphase with ⟨h0, h1, h2, h3, h4, h5⟩ | ⟨h0, h1, h2, h3, h4, h5⟩ |
    ⟨h0, h1, h2, h3, h4, h5⟩ | ⟨h0, h1, h2, h3, h4, h5⟩ | ⟨h0, h1, h2, h3, h4, h5⟩ |
    ⟨h0, h1, h2, h3, h4, h5⟩ <;> subst h0 <;>
  (try exact absurd rfl hidle) <;> cases e <;> cases sst <;>
  (try simp only [armed_handle, Option.some.injEq, forall_eq'] at hss h5) <;>
  (try exact absurd h5 Bool.false_ne_true) <;>
  (try simp only [Event.hazard.injEq, forall_eq', reduceCtorEq, false_implies, implies_true,
    ne_eq, not_true_eq_false] at hgo) <;>
  simp [Wanderer.step, Wanderer.fire, Wanderer.call, Wanderer.hazard_callback,
    Wanderer.forward_callback, Wanderer.spin_callback, Wanderer.reverse_callback,
    Wanderer.reverse_stop_callback, Wanderer.forward_stop_callback, Wanderer.spin_stop_callback,
    Wanderer.publish, Wanderer.idle, Wanderer.reverse, Wanderer.spinn, Wanderer.go_forward,
    Wanderer.during_process, random_between_two_int_1_5, armed_handle,
    *] at hstep <;>
  subst hstep <;>
  norm_num [Wanderer.emitted_since, Wanderer.idle, Wanderer.reverse, Wanderer.spinn,
    Wanderer.go_forward, Wanderer.during_process]

/-- When the published list of `w1` is that of `w` followed by `cs`, the
commands published since `w` are `cs`. -/
theorem emitted_since_of_append (w w1 : Wanderer) (cs : List Twist)
    (h : w1.publisher_ = w.publisher_ ++ cs) : Wanderer.emitted_since w w1 = cs := by
  unfold Wanderer.emitted_since
  rw [h, List.drop_left]

/-- The commands published since `w` split at any configuration in between. -/
theorem emitted_since_split (w w1 w2 : Wanderer)
    (h1 : w1.publisher_ = w.publisher_ ++ Wanderer.emitted_since w w1)
    (h2 : w2.publisher_ = w1.publisher_ ++ Wanderer.emitted_since w1 w2) :
    Wanderer.emitted_since w w2 = Wanderer.emitted_since w w1 ++ Wanderer.emitted_since w1 w2 := by
  apply emitted_since_of_append
  rw [← List.append_assoc, ← h1]
  exact h2

/-- The published list only grows along a sequence of events. -/
theorem run_publisher (BUMP : Nat) (rand : Nat → Int) (es : List Event) (w w2 : Wanderer)
    (hrun : Wanderer.run BUMP rand es w = some w2) :
    w2.publisher_ = w.publisher_ ++ Wanderer.emitted_since w w2 := by
  induction es generalizing w with
  | nil =>
    simp only [Wanderer.run, Option.some.injEq] at hrun
    subst hrun
    simp [Wanderer.emitted_since]
  | cons e es ih =>
    obtain ⟨w1, hstep, hrest⟩ := (run_cons_eq_some BUMP rand e es w w2).mp hrun
    have h1 := (step_publisher BUMP rand e w w1 hstep).1
    have h2 := ih w1 hrest
    rw [emitted_since_split w w1 w2 h1 h2, ← List.append_assoc, ← h1]
    exact h2

/-- From a configuration outside `idle`, a sequence of events none of which is
a hazard batch handled in `go_forward` stays outside `idle` and publishes no
command with linear x 0.1. -/
theorem run_outside_idle (BUMP : Nat) (rand : Nat → Int) (es : List Event) (w w2 : Wanderer)
    (hc : w.consistent) (hidle : w.state ≠ Wanderer.idle)
    (hrun : Wanderer.run BUMP rand es w = some w2)
    (hgo : ∀ p h rest wp, es = p ++ Event.hazard h :: rest →
      Wanderer.run BUMP rand p w = some wp → wp.state ≠ Wanderer.go_forward) :
    w2.state ≠ Wanderer.idle ∧ ∀ c ∈ Wanderer.emitted_since w w2, c.linear.x ≠ 0.1 := by
  induction es generalizing w with
  | nil =>
    simp only [Wanderer.run, Option.some.injEq] at hrun
    subst hrun
    exact ⟨hidle, by simp [Wanderer.emitted_since]⟩
  | cons e es ih =>
    obtain ⟨w1, hstep, hrest⟩ := (run_cons_eq_some BUMP rand e es w w2).mp hrun
    have hfirst : ∀ msg, e = Event.hazard msg → w.state ≠ Wanderer.go_forward := by
      intro msg he
      exact hgo [] msg es w (by rw [he]; rfl) rfl
    obtain ⟨hidle1, hcmd1⟩ := step_outside_idle BUMP rand e w w1 hc hidle hfirst hstep
    have hrestgo : ∀ p h rest wp, es = p ++ Event.hazard h :: rest →
        Wanderer.run BUMP rand p w1 = some wp → wp.state ≠ Wanderer.go_forward := by
      intro p h rest wp hes hp
      exact hgo (e :: p) h rest wp (by rw [hes]; rfl)
        ((run_cons_eq_some BUMP rand e p w wp).mpr ⟨w1, hstep, hp⟩)
    obtain ⟨hidle2, hcmd2⟩ :=
      ih w1 (consistent_step BUMP rand e w w1 hc hstep) hidle1 hrest hrestgo
    refine ⟨hidle2, ?_⟩
    rw [emitted_since_split w w1 w2 (step_publisher BUMP rand e w w1 hstep).1
      (run_publisher BUMP rand es w1 w2 hrest)]
    intro c hcin
    rcases List.mem_append.mp hcin with h | h
    · exact hcmd1 c h
    · exact hcmd2 c h

/-- C11. Once a batch holding a bump has been handled in `idle`, no command
with linear x 0.1 is published, and the state is not `idle` again, as long as no
hazard batch has been handled in `go_forward`; and in every reachable
configuration the ForwardDrive timer is armed only when the state is `idle`. -/
theorem no_forward_command_during_recovery (BUMP : Nat) (rand : Nat → Int)
    (es1 es2 : List Event) (b : HazardDetectionVector) (w1 w2 w3 : Wanderer)
    (hreach : Wanderer.run BUMP rand es1 Wanderer.ctor = some w1)
    (hidle : w1.state = Wanderer.idle)
    (hbump : ∃ hd ∈ b.detections, hd.type = BUMP)
    (hstep : Wanderer.step BUMP rand (Event.hazard b) w1 = some w2)
    (hrun : Wanderer.run BUMP rand es2 w2 = some w3)
    (hgo : ∀ p h rest wp, es2 = p ++ Event.hazard h :: rest →
      Wanderer.run BUMP rand p w2 = some wp → wp.state ≠ Wanderer.go_forward) :
    (∀ c ∈ Wanderer.emitted_since w1 w3, c.linear.x ≠ 0.1) ∧
    w3.state ≠ Wanderer.idle ∧
    (∀ es w, Wanderer.run BUMP rand es Wanderer.ctor = some w →
      w.forward_timer_.armed = true → w.state = Wanderer.idle) := by
  have hc1 := consistent_of_reachable BUMP rand es1 w1 hreach
  have hscan := (scan_detections_eq_true BUMP b.detections).mpr hbump
  have hw2 : w2 = { w1.forward_stop_callback with state := Wanderer.reverse } := by
    have h := hazard_callback_idle_bump_eq BUMP rand b w1 hidle hscan
    have h2 : Wanderer.hazard_callback BUMP rand b w1 = some w2 := hstep
    rw [h] at h2
    exact (Option.some.inj h2).symm
  have hidle2 : w2.state ≠ Wanderer.idle := by
    rw [hw2]
    show Wanderer.reverse ≠ Wanderer.idle
    decide
  obtain ⟨hidle3, hcmd⟩ := run_outside_idle BUMP rand es2 w2 w3
    (consistent_step BUMP rand _ w1 w2 hc1 hstep) hidle2 hrun hgo
  refine ⟨?_, hidle3, ?_⟩
  · rw [emitted_since_split w1 w2 w3 (step_publisher BUMP rand _ w1 w2 hstep).1
      (run_publisher BUMP rand es2 w2 w3 hrun)]
    intro c hcin
    rcases List.mem_append.mp hcin with h | h
    · have hz : c = ⟨⟨0.0, 0.0, 0.0⟩, ⟨0.0, 0.0, 0.0⟩⟩ := by
        rw [hw2] at h
        simpa [Wanderer.emitted_since, Wanderer.forward_stop_callback, Wanderer.publish] using h
      rw [hz]
      norm_num
    · exact hcmd c h
  · intro es w hw harmed
    obtain ⟨_, hphase⟩ := consistent_of_reachable BUMP rand es w hw
    simp only [Wanderer.armed_pattern, Prod.mk.injEq] at hphase
    rcases hphase with ⟨h0, h1, _⟩ | ⟨h0, h1, _⟩ | ⟨h0, h1, _⟩ | ⟨h0, h1, _⟩ |
      ⟨h0, h1, _⟩ | ⟨h0, h1, _⟩
    · exact h0
    all_goals rw [h1] at harmed; cases harmed

/-- Witness of C11: after the bump an empty batch starts the reverse phase and
the Reverse timer ticks once; the two commands published since the bump are the
stop command and the reverse command. -/
theorem no_forward_command_during_recovery_witness :
    ∃ w2 w3,
      Wanderer.step 1 (fun _ => 0) (Event.hazard ⟨[⟨1⟩]⟩) Wanderer.ctor = some w2 ∧
      Wanderer.run 1 (fun _ => 0) [Event.hazard ⟨[]⟩, Event.reverse_timer_] w2 = some w3 ∧
      ((∀ c ∈ Wanderer.emitted_since Wanderer.ctor w3, c.linear.x ≠ 0.1) ∧
        w3.state ≠ Wanderer.idle ∧
        (∀ es w, Wanderer.run 1 (fun _ => 0) es Wanderer.ctor = some w →
          w.forward_timer_.armed = true → w.state = Wanderer.idle)) :=
  ⟨_, _, rfl, rfl,
    no_forward_command_during_recovery 1 (fun _ => 0) []
      [Event.hazard ⟨[]⟩, Event.reverse_timer_] ⟨[⟨1⟩]⟩ Wanderer.ctor _ _ rfl rfl
      ⟨⟨1⟩, by simp, rfl⟩ rfl rfl
      (by
        intro p h rest wp hes hp
        rcases p with _ | ⟨x, _ | ⟨y, p⟩⟩
        · simp only [Wanderer.run, Option.some.injEq] at hp
          subst hp
          decide
        · simp at hes
        · simp at hes)⟩

/-! ## The random draw of a spin cycle -/

/-- In every configuration an event draws a random number exactly when it is a
hazard batch handled in state `spinn`, and then it draws one. -/
theorem step_rand_calls (BUMP : Nat) (rand : Nat → Int) (e : Event) (w w1 : Wanderer)
    (hstep : Wanderer.step BUMP rand e w = some w1) :
    (w1.rand_calls = w.rand_calls + 1 ∧ w.state = Wanderer.spinn ∧ ∃ msg, e = Event.hazard msg) ∨
    (w1.rand_calls = w.rand_calls ∧ ¬ (w.state = Wanderer.spinn ∧ ∃ msg, e = Event.hazard msg)) := by
  obtain ⟨pub, rc, full, st, sst, rt, rst, ft, fst, ip, rd, sd, state⟩ := w
  cases e <;>
  simp only [Wanderer.step, Wanderer.fire, Wanderer.call, Wanderer.hazard_callback,
    Wanderer.forward_callback, Wanderer.spin_callback, Wanderer.reverse_callback,
    Wanderer.reverse_stop_callback, Wanderer.forward_stop_callback, Wanderer.spin_stop_callback,
    Wanderer.publish, random_between_two_int_1_5] at hstep <;>
  (repeat' split at hstep) <;> cases hstep <;>
  simp_all [Wanderer.idle, Wanderer.reverse, Wanderer.spinn, Wanderer.go_forward]

/-- During the spin phase an event other than the SpinStop fire draws no random
number and leaves `spin_stop_timer_` and the state as they were. -/
theorem step_spin_phase (BUMP : Nat) (rand : Nat → Int) (e : Event) (w w1 : Wanderer)
    (hc : w.consistent) (hstate : w.state = Wanderer.during_process)
    (harmed : armed_handle w.spin_stop_timer_ = true)
    (hne : e ≠ Event.spin_stop_timer_)
    (hstep : Wanderer.step BUMP rand e w = some w1) :
    w1.rand_calls = w.rand_calls ∧ w1.spin_stop_timer_ = w.spin_stop_timer_ ∧
    w1.state = Wanderer.during_process := by
  obtain ⟨⟨hf, hs, hr, hrs, hfs, hss, hfull, hfsa⟩, hphase⟩ := hc
  obtain ⟨pub, rc, full, st, sst, rt, rst, ft, fst, ip, rd, sd, state⟩ := w
  simp only at hf hs hr hrs hfs hss hfull hfsa hstate harmed
  simp only [Wanderer.armed_pattern, Prod.mk.injEq] at hphase
  rcases hphase with ⟨h0, h1, h2, h3, h4, h5⟩ | ⟨h0, h1, h2, h3, h4, h5⟩ |
    ⟨h0, h1, h2, h3, h4, h5⟩ | ⟨h0, h1, h2, h3, h4, h5⟩ | ⟨h0, h1, h2, h3, h4, h5⟩ |
    ⟨h0, h1, h2, h3, h4, h5⟩ <;>
  (try (rw [h5] at harmed; cases harmed))
  subst h0
  cases e <;> (try exact absurd rfl hne) <;>
  simp [Wanderer.step, Wanderer.fire, Wanderer.call, Wanderer.hazard_callback,
    Wanderer.forward_callback, Wanderer.spin_callback, Wanderer.reverse_callback,
    Wanderer.reverse_stop_callback, Wanderer.forward_stop_callback, Wanderer.spin_stop_callback,
    Wanderer.publish, Wanderer.idle, Wanderer.reverse, Wanderer.spinn, Wanderer.go_forward,
    Wanderer.during_process, h1, h2, h3, h4, hf, hs, hr, hrs, hfs, hfsa] at hstep <;>
  (subst hstep; exact ⟨rfl, rfl, rfl⟩)

/-- During the spin phase a sequence of events without a SpinStop fire draws no
random number and leaves `spin_stop_timer_` and the state as they were. -/
theorem run_spin_phase (BUMP : Nat) (rand : Nat → Int) (es : List Event) (w w2 : Wanderer)
    (hc : w.consistent) (hstate : w.state = Wanderer.during_process)
    (harmed : armed_handle w.spin_stop_timer_ = true)
    (hno : Event.spin_stop_timer_ ∉ es)
    (hrun : Wanderer.run BUMP rand es w = some w2) :
    w2.rand_calls = w.rand_calls ∧ w2.spin_stop_timer_ = w.spin_stop_timer_ ∧
    w2.state = Wanderer.during_process := by
  induction es generalizing w with
  | nil =>
    simp only [Wanderer.run, Option.some.injEq] at hrun
    subst hrun
    exact ⟨rfl, rfl, hstate⟩
  | cons e es ih =>
    obtain ⟨w1, hstep, hrest⟩ := (run_cons_eq_some BUMP rand e es w w2).mp hrun
    have hne : e ≠ Event.spin_stop_timer_ := fun h => hno (by rw [h]; exact List.mem_cons_self _ _)
    obtain ⟨hr1, ht1, hs1⟩ := step_spin_phase BUMP rand e w w1 hc hstate harmed hne hstep
    obtain ⟨hr2, ht2, hs2⟩ := ih w1 (consistent_step BUMP rand e w w1 hc hstep) hs1
      (by rw [ht1]; exact harmed) (fun h => hno (List.mem_cons_of_mem _ h)) hrest
    exact ⟨by rw [hr2, hr1], by rw [ht2, ht1], hs2⟩

/-- C17. An event draws a random number only when it is a hazard batch handled
in state `spinn`, and then exactly one; from that transition into
`during_process` on, whatever events other than the SpinStop fire occur, no
further number is drawn and `spin_stop_timer_`, with its period of
`random_between_two_int(1, 5)` seconds, stays as it was created. -/
theorem spin_duration_drawn_once (BUMP : Nat) (rand : Nat → Int) (es0 es : List Event)
    (msg : HazardDetectionVector) (w0 w1 w2 : Wanderer)
    (hreach : Wanderer.run BUMP rand es0 Wanderer.ctor = some w0)
    (hstate : w0.state = Wanderer.spinn)
    (hstep : Wanderer.step BUMP rand (Event.hazard msg) w0 = some w1)
    (hno : Event.spin_stop_timer_ ∉ es)
    (hrun : Wanderer.run BUMP rand es w1 = some w2) :
    w1.rand_calls = w0.rand_calls + 1 ∧ w1.state = Wanderer.during_process ∧
    w2.rand_calls = w1.rand_calls ∧ w2.spin_stop_timer_ = w1.spin_stop_timer_ ∧
    (∃ d, Wanderer.random_between_two_int 1 5 (rand w0.rand_calls) = some d ∧
      w2.spin_stop_timer_ = some (create_wall_timer (d * 1000) Callback.spin_stop_callback)) ∧
    (∀ (e : Event) (w w3 : Wanderer), Wanderer.step BUMP rand e w = some w3 →
      (w3.rand_calls = w.rand_calls + 1 ∧ w.state = Wanderer.spinn ∧
        ∃ m, e = Event.hazard m) ∨
      (w3.rand_calls = w.rand_calls ∧ ¬ (w.state = Wanderer.spinn ∧ ∃ m, e = Event.hazard m))) := by
  have hc0 := consistent_of_reachable BUMP rand es0 w0 hreach
  have h := hazard_callback_spinn_eq BUMP rand msg w0 _ hstate (random_between_two_int_1_5 _)
  have h2 : Wanderer.hazard_callback BUMP rand msg w0 = some w1 := hstep
  rw [h] at h2
  have hw1 := (Option.some.inj h2).symm
  have hc1 := consistent_step BUMP rand _ w0 w1 hc0 hstep
  have hs1 : w1.state = Wanderer.during_process := by rw [hw1]
  have ha1 : armed_handle w1.spin_stop_timer_ = true := by rw [hw1]; rfl
  obtain ⟨hr2, ht2, _⟩ := run_spin_phase BUMP rand es w1 w2 hc1 hs1 ha1 hno hrun
  refine ⟨by rw [hw1], hs1, hr2, ht2, ⟨_, random_between_two_int_1_5 _, ?_⟩,
    fun e w w3 h => step_rand_calls BUMP rand e w w3 h⟩
  rw [ht2, hw1]

/-- Witness of C17: after the reverse phase a batch starts the spin phase with
`rand()` returning 7; then a bump batch, a Spin tick and an empty batch occur. -/
theorem spin_duration_drawn_once_witness :
    ∃ w0 w1 w2,
      Wanderer.run 1 (fun _ => 7)
        [Event.hazard ⟨[⟨1⟩]⟩, Event.hazard ⟨[]⟩, Event.reverse_stop_timer_]
        Wanderer.ctor = some w0 ∧
      w0.state = Wanderer.spinn ∧
      Wanderer.step 1 (fun _ => 7) (Event.hazard ⟨[]⟩) w0 = some w1 ∧
      Wanderer.run 1 (fun _ => 7)
        [Event.hazard ⟨[⟨1⟩]⟩, Event.spin_timer_, Event.hazard ⟨[]⟩] w1 = some w2 ∧
      w1.rand_calls = w0.rand_calls + 1 ∧ w1.state = Wanderer.during_process ∧
      w2.rand_calls = w1.rand_calls ∧ w2.spin_stop_timer_ = w1.spin_stop_timer_ :=
  ⟨_, _, _, rfl, rfl, rfl, rfl,
    (spin_duration_drawn_once 1 (fun _ => 7)
      [Event.hazard ⟨[⟨1⟩]⟩, Event.hazard ⟨[]⟩, Event.reverse_stop_timer_]
      [Event.hazard ⟨[⟨1⟩]⟩, Event.spin_timer_, Event.hazard ⟨[]⟩] ⟨[]⟩ _ _ _
      rfl rfl rfl (by decide) rfl).1,
    rfl, rfl, rfl⟩

end LaserFollower
